import Mathlib

/-!
Verification of the template-traversal document generator in
`ItemDef_developer_tool.py` (generative mode `generate_iso_26262_item_definition`
and guidance mode `generate_item_definition_template`).

The Python code is shallowly embedded: dictionaries whose field set the code
inspects become structures with `Option` fields; a direct subscript
`d["k"]` on a possibly-missing key becomes a match returning
`Except.error (PyErr.keyError "k")` (Python `KeyError`); the external
collaborators — `json.loads`, the template file load, `datetime.now`, and the
LLM call `cat.llm` — are passed in as explicit parameters.  The write-backs
that the source performs into the loaded template (`generated_date`,
`item_name`, `item_id`, `description`, and each node's `content`) are
call-local scratch state that is never read back into the produced document,
so they are not represented; the single field of the template metadata the
output does read (`work_product`, and `document_type` in guidance mode) is
kept.  Python floats carrying section weights are modelled as exact rationals.
-/

/-- A Python exception escaping the tool function. -/
inductive PyErr where
  | keyError (name : String)
  | valueError
deriving DecidableEq

/-- `Except` analogue of `Option.getD`. -/
def exGetD {ε α : Type} (e : Except ε α) (d : α) : α :=
  match e with
  | .ok a => a
  | .error _ => d

/-- Whether an `Except` value is a normal result. -/
def exIsOk {ε α : Type} (e : Except ε α) : Bool :=
  match e with
  | .ok _ => true
  | .error _ => false

instance {ε α : Type} [DecidableEq ε] [DecidableEq α] : DecidableEq (Except ε α) := fun x y =>
  match x, y with
  | .ok a, .ok b => if h : a = b then .isTrue (by rw [h]) else .isFalse (by simp [h])
  | .error a, .error b => if h : a = b then .isTrue (by rw [h]) else .isFalse (by simp [h])
  | .ok _, .error _ => .isFalse (by simp)
  | .error _, .ok _ => .isFalse (by simp)

/-- Run a fallible function over a list, stopping at the first error:
the shape of a Python `for` loop whose body may raise. -/
def exceptMap {ε α β : Type} (f : α → Except ε β) : List α → Except ε (List β)
  | [] => .ok []
  | x :: xs =>
    match f x with
    | .error e => .error e
    | .ok b =>
      match exceptMap f xs with
      | .error e => .error e
      | .ok bs => .ok (b :: bs)

/-- Python substring test `needle in hay`, on lists of characters. -/
def listIsInf (needle : List Char) : List Char → Bool
  | [] => needle.isEmpty
  | b :: bs => needle.isPrefixOf (b :: bs) || listIsInf needle bs

/-- Python `needle in hay` for strings. -/
def strIn (needle hay : String) : Bool :=
  listIsInf needle.toList hay.toList

/-- Python `str.strip()`: drop whitespace from both ends (modelled over the
character list so that it evaluates by kernel reduction). -/
def pyStrip (s : String) : String :=
  String.mk (((s.toList.dropWhile Char.isWhitespace).reverse.dropWhile
    Char.isWhitespace).reverse)

/-- Python `str.lower()` (ASCII case folding, over the character list). -/
def strToLower (s : String) : String :=
  String.mk (s.toList.map Char.toLower)

/-- The values the prompt templates may refer to, keyed as in the source:
`prompt.format(system_name=..., system_id=..., datetime_now=...)`. -/
def formatLookup (sn sid now : String) (name : String) : Option String :=
  if name = "system_name" then some sn
  else if name = "system_id" then some sid
  else if name = "datetime_now" then some now
  else none

/-- Scanner state for the `str.format` model: plain text, or inside a
replacement field accumulating the field name (reversed). -/
inductive FmtState where
  | text
  | field (acc : List Char)
deriving DecidableEq

/-- Model of Python `str.format` restricted to simple named replacement
fields, which is all the templates use: `\x7b\x7b` and `\x7d\x7d` are literal
braces, `\x7bname\x7d` substitutes a recognized name and raises `KeyError`
on an unknown one, and a stray or unclosed brace raises `ValueError`.
(Conversion/format-spec suffixes and indexed fields are not modelled.) -/
def pyFormatAux (sn sid now : String) : FmtState → List Char → Except PyErr (List Char)
  | .text, [] => .ok []
  | .text, '{' :: '{' :: rest =>
    match pyFormatAux sn sid now .text rest with
    | .error e => .error e
    | .ok r => .ok ('{' :: r)
  | .text, '}' :: '}' :: rest =>
    match pyFormatAux sn sid now .text rest with
    | .error e => .error e
    | .ok r => .ok ('}' :: r)
  | .text, '{' :: rest => pyFormatAux sn sid now (.field []) rest
  | .text, '}' :: _ => .error .valueError
  | .text, c :: rest =>
    match pyFormatAux sn sid now .text rest with
    | .error e => .error e
    | .ok r => .ok (c :: r)
  | .field _, [] => .error .valueError
  | .field acc, '}' :: rest =>
    match formatLookup sn sid now (String.mk acc.reverse) with
    | some v =>
      match pyFormatAux sn sid now .text rest with
      | .error e => .error e
      | .ok r => .ok (v.toList ++ r)
    | none => .error (.keyError (String.mk acc.reverse))
  | .field acc, c :: rest => pyFormatAux sn sid now (.field (c :: acc)) rest

/-- `p.format(system_name=sn, system_id=sid, datetime_now=now)`. -/
def pyFormat (p sn sid now : String) : Except PyErr String :=
  match pyFormatAux sn sid now .text p.toList with
  | .error e => .error e
  | .ok cs => .ok (String.mk cs)

/-- A subsection node of the loaded template: the fields the generative
renderer reads (`title`, `clause_ref`, `weight`, `prompt`). -/
structure SubData where
  title : Option String := none
  clause_ref : Option String := none
  weight : Option ℚ := none
  prompt : Option String := none
deriving DecidableEq

/-- A top-level section node of the loaded template. -/
structure SecData where
  title : Option String := none
  clause_ref : Option String := none
  weight : Option ℚ := none
  prompt : Option String := none
  subsections : Option (List (String × SubData)) := none
deriving DecidableEq

/-- The template metadata the generative output reads. -/
structure Metadata where
  work_product : String
deriving DecidableEq

/-- The loaded generative template: `metadata` plus the ordered section map
(Python dict insertion order becomes an association list). -/
structure Template where
  metadata : Metadata
  sections : List (String × SecData)
deriving DecidableEq

/-- The Python values `tool_input` (or its `json.loads` image) may take, as
far as the source inspects them: a string, a dict carrying the three keys the
code reads, or anything else. -/
inductive PyVal where
  | vstr (s : String)
  | vdict (system_name system_id focus_section : Option String)
  | vother
deriving DecidableEq

/-- Input normalization of `generate_iso_26262_item_definition` (lines 43-58):
defaults, then `json.loads` on a string (falling back to treating the trimmed
text as the system name on a parse error), then dict key reads.
`jsonLoads` models the external `json.loads`: `none` is a `JSONDecodeError`.
Returns `(system_name, system_id, focus_section)`. -/
def normalizeInput (jsonLoads : String → Option PyVal) (tool_input : PyVal) :
    String × String × Option String :=
  match tool_input with
  | .vstr s =>
    match jsonLoads s with
    | some (.vdict sn sid fs) => (sn.getD "Unknown System", sid.getD "", fs)
    | some _ => ("Unknown System", "", none)
    | none => (pyStrip s, "", none)
  | .vdict sn sid fs => (sn.getD "Unknown System", sid.getD "", fs)
  | .vother => ("Unknown System", "", none)

/-- Python truthiness of the `focus_section` value: `None` and `""` are falsy. -/
def focusTruthy : Option String → Bool
  | none => false
  | some s => !(s == "")

/-- The focus-match test the source applies to a node (lines 83-84, 92-93):
`focus_section in key.lower() or focus_section in node.get("title", "").lower()`,
with `fs` already lower-cased. -/
def matchB (fs key : String) (title : Option String) : Bool :=
  strIn fs (strToLower key) || strIn fs (strToLower (title.getD ""))

/-- First boosting loop (lines 81-86): set each matching top-level section's
weight to 2.0 and record its key. -/
def boostSecPass (fs : String) : List (String × SecData) → List (String × SecData) × List String
  | [] => ([], [])
  | (sec_key, sec_data) :: rest =>
    let r := boostSecPass fs rest
    if matchB fs sec_key sec_data.title then
      ((sec_key, { sec_data with weight := some 2 }) :: r.1, sec_key :: r.2)
    else
      ((sec_key, sec_data) :: r.1, r.2)

/-- Inner subsection boosting loop (lines 91-95). -/
def boostSubPass (fs sec_key : String) : List (String × SubData) → List (String × SubData) × List String
  | [] => ([], [])
  | (sub_key, sub_data) :: rest =>
    let r := boostSubPass fs sec_key rest
    if matchB fs sub_key sub_data.title then
      ((sub_key, { sub_data with weight := some 2 }) :: r.1, (sec_key ++ " -> " ++ sub_key) :: r.2)
    else
      ((sub_key, sub_data) :: r.1, r.2)

/-- Second boosting loop (lines 89-95): boost matching subsections of every
section, recording `"sec -> sub"` identifiers. -/
def boostSubsPass (fs : String) : List (String × SecData) → List (String × SecData) × List String
  | [] => ([], [])
  | (sec_key, sec_data) :: rest =>
    let r := boostSubsPass fs rest
    match sec_data.subsections with
    | some subs =>
      let s := boostSubPass fs sec_key subs
      ((sec_key, { sec_data with subsections := some s.1 }) :: r.1, s.2 ++ r.2)
    | none => ((sec_key, sec_data) :: r.1, r.2)

/-- Focus weighting (lines 76-100): if `focus_section` is truthy, lower-case
it once and run the two boosting loops; the recorded boosted identifiers are
the section keys followed by the subsection paths.  Otherwise nothing happens. -/
def applyFocus (sections : List (String × SecData)) (focus_section : Option String) :
    List (String × SecData) × List String :=
  if focusTruthy focus_section then
    let fs := strToLower (focus_section.getD "")
    let p1 := boostSecPass fs sections
    let p2 := boostSubsPass fs p1.1
    (p2.1, p1.2 ++ p2.2)
  else
    (sections, [])

/-- The optional clause-reference line emitted under a heading. -/
def clauseLine : Option String → List String
  | some cr => ["*Clause: " ++ cr ++ "*"]
  | none => []

/-- Lines 132-133 / 152-153: prepend the priority marker when the node's
weight (default 1.0) exceeds 1.0. -/
def markPrompt (w : Option ℚ) (prompt : String) : String :=
  if w.getD 1 > 1 then "[FOCUS AREA - IMPORTANT] " ++ prompt else prompt

/-- Render one subsection in generative mode (lines 120-143): read its title
and prompt (a missing key raises), substitute the parameters, mark the prompt
when the weight is boosted, call the LLM, and on failure emit the placeholder
line instead of content.  Returns the emitted lines and the dispatched
prompts (here always exactly one). -/
def renderSub (sn sid now : String) (llm : String → Except String String)
    (x : String × SubData) : Except PyErr (List String × List String) :=
  match x.2.title with
  | none => .error (.keyError "title")
  | some sub_title =>
    let head := ["### " ++ sub_title] ++ clauseLine x.2.clause_ref
    match x.2.prompt with
    | none => .error (.keyError "prompt")
    | some p0 =>
      match pyFormat p0 sn sid now with
      | .error e => .error e
      | .ok p1 =>
        let prompt := markPrompt x.2.weight p1
        match llm prompt with
        | .ok content => .ok (head ++ [pyStrip content, ""], [prompt])
        | .error _ => .ok (head ++ ["[Content generation failed]", ""], [prompt])

/-- Render one top-level section in generative mode (lines 109-163): skip it
when it has no title, emit its heading and clause line, then either render its
subsections in order or treat it as a leaf with its own prompt. -/
def renderSec (sn sid now : String) (llm : String → Except String String)
    (x : String × SecData) : Except PyErr (List String × List String) :=
  match x.2.title with
  | none => .ok ([], [])
  | some title =>
    let head := ["## " ++ title] ++ clauseLine x.2.clause_ref
    match x.2.subsections with
    | some subs =>
      match exceptMap (renderSub sn sid now llm) subs with
      | .error e => .error e
      | .ok blocks => .ok (head ++ (blocks.map Prod.fst).flatten, (blocks.map Prod.snd).flatten)
    | none =>
      match x.2.prompt with
      | none => .error (.keyError "prompt")
      | some p0 =>
        match pyFormat p0 sn sid now with
        | .error e => .error e
        | .ok p1 =>
          let prompt := markPrompt x.2.weight p1
          match llm prompt with
          | .ok content => .ok (head ++ [pyStrip content, ""], [prompt])
          | .error _ => .ok (head ++ ["[Content generation failed]", ""], [prompt])

/-- The section loop of the generative renderer: each iteration appends its
own lines to `output_lines`, so the loop is the concatenation of the
per-section blocks (and of the per-section prompt logs). -/
def renderSections (sn sid now : String) (llm : String → Except String String)
    (sections : List (String × SecData)) : Except PyErr (List String × List String) :=
  match exceptMap (renderSec sn sid now llm) sections with
  | .error e => .error e
  | .ok blocks => .ok ((blocks.map Prod.fst).flatten, (blocks.map Prod.snd).flatten)

/-- The whole generative tool call, `generate_iso_26262_item_definition`:
normalize the input, bail out with the fixed error string when the template
load failed, apply focus weighting, emit the document header, run the section
loop, and join the lines.  The result carries the returned string together
with the log of prompts dispatched to the LLM (empty means the generator was
never invoked); `Except.error` is an exception escaping the call. -/
def generate_iso_26262_item_definition (jsonLoads : String → Option PyVal)
    (loadResult : Except String Template) (now_str : String)
    (llm : String → Except String String) (tool_input : PyVal) :
    Except PyErr (String × List String) :=
  let p := normalizeInput jsonLoads tool_input
  match loadResult with
  | .error _ => .ok ("❌ Error: Could not load Item Definition template.", [])
  | .ok template =>
    let sections := (applyFocus template.sections p.2.2).1
    let header := ["# ISO 26262 Item Definition: " ++ p.1,
                   "*Work Product: " ++ template.metadata.work_product ++ "*",
                   "*Generated on: " ++ now_str ++ "*",
                   ""]
    match renderSections p.1 p.2.1 now_str llm sections with
    | .error e => .error e
    | .ok out => .ok (String.intercalate "\n" (header ++ out.1), out.2)

/-- The trimmed LLM content, or the fixed placeholder line on failure
(the body of the try/except at lines 135-141 / 155-161). -/
def resultOf (llm : String → Except String String) (p : String) : String :=
  match llm p with
  | .ok content => pyStrip content
  | .error _ => "[Content generation failed]"

/-- Specification companion: the prompt a leaf node dispatches, computed
totally (the default `""` branch is never taken on a wellformed node). -/
def leafPromptSpec (sn sid now : String) (prompt : Option String) (w : Option ℚ) : String :=
  markPrompt w (exGetD (pyFormat (prompt.getD "") sn sid now) "")

/-- Specification companion: the lines a subsection contributes. -/
def subLinesSpec (sn sid now : String) (llm : String → Except String String)
    (sub : SubData) : List String :=
  ["### " ++ sub.title.getD ""] ++ clauseLine sub.clause_ref ++
    [resultOf llm (leafPromptSpec sn sid now sub.prompt sub.weight), ""]

/-- Specification companion: the lines a top-level section contributes. -/
def secLinesSpec (sn sid now : String) (llm : String → Except String String)
    (x : String × SecData) : List String :=
  match x.2.title with
  | none => []
  | some title =>
    ["## " ++ title] ++ clauseLine x.2.clause_ref ++
      (match x.2.subsections with
       | some subs => (subs.map (fun y => subLinesSpec sn sid now llm y.2)).flatten
       | none => [resultOf llm (leafPromptSpec sn sid now x.2.prompt x.2.weight), ""])

/-- Specification companion: the prompts a top-level section dispatches. -/
def secPromptsSpec (sn sid now : String) (x : String × SecData) : List String :=
  match x.2.title with
  | none => []
  | some _ =>
    match x.2.subsections with
    | some subs => subs.map (fun y => leafPromptSpec sn sid now y.2.prompt y.2.weight)
    | none => [leafPromptSpec sn sid now x.2.prompt x.2.weight]

/-- A subsection the generative renderer gets through without raising:
title and prompt present, and the substitution succeeds. -/
def subWfB (sn sid now : String) (sub : SubData) : Bool :=
  sub.title.isSome &&
    (match sub.prompt with
     | some p => exIsOk (pyFormat p sn sid now)
     | none => false)

/-- A top-level section the generative renderer gets through without raising. -/
def secWfB (sn sid now : String) (x : String × SecData) : Bool :=
  match x.2.title with
  | none => true
  | some _ =>
    match x.2.subsections with
    | some subs => subs.all (fun y => subWfB sn sid now y.2)
    | none =>
      match x.2.prompt with
      | some p => exIsOk (pyFormat p sn sid now)
      | none => false

/-- The whole section list is traversable without raising. -/
def wfB (sn sid now : String) (sections : List (String × SecData)) : Bool :=
  sections.all (secWfB sn sid now)

/-- The structural precondition of the generative traversal: every titled
section carries subsections or a prompt, and every subsection of a titled
section carries a title and a prompt. -/
def genPrecondB (sections : List (String × SecData)) : Bool :=
  sections.all fun x =>
    match x.2.title with
    | none => true
    | some _ =>
      match x.2.subsections with
      | some subs => subs.all (fun y => y.2.title.isSome && y.2.prompt.isSome)
      | none => x.2.prompt.isSome

theorem exceptMap_ok_of_forall {ε α β : Type} (f : α → Except ε β) (g : α → β) :
    ∀ (l : List α), (∀ x ∈ l, f x = .ok (g x)) → exceptMap f l = .ok (l.map g)
  | [], _ => rfl
  | x :: xs, h => by
    have hx : f x = .ok (g x) := h x (List.mem_cons_self x xs)
    have hxs : exceptMap f xs = .ok (xs.map g) :=
      exceptMap_ok_of_forall f g xs (fun y hy => h y (List.mem_cons_of_mem x hy))
    simp [exceptMap, hx, hxs]

theorem forall_ok_of_exceptMap_ok {ε α β : Type} (f : α → Except ε β) :
    ∀ (l : List α) (bs : List β), exceptMap f l = .ok bs → ∀ x ∈ l, ∃ b, f x = .ok b := by
  intro l
  induction l with
  | nil => intro bs _ x hx; exact absurd hx (List.not_mem_nil x)
  | cons y ys ih =>
    intro bs h x hx
    rcases hfy : f y with e | b
    · rw [exceptMap, hfy] at h; exact absurd h (by simp)
    · rcases hys : exceptMap f ys with e | bs'
      · rw [exceptMap, hfy, hys] at h; exact absurd h (by simp)
      · rcases List.mem_cons.mp hx with rfl | hx'
        · exact ⟨b, hfy⟩
        · exact ih bs' hys x hx'

theorem flatten_map_singleton {α β : Type} (f : α → β) :
    ∀ (l : List α), (l.map (fun x => [f x])).flatten = l.map f
  | [] => rfl
  | x :: xs => by simp [flatten_map_singleton f xs]

/-- If the per-element lists are pointwise sublists, the flattened lists are. -/
theorem flatten_map_sublist {α β : Type} (f g : β → List α) :
    ∀ (l : List β), (∀ x ∈ l, (f x).Sublist (g x)) →
      ((l.map f).flatten).Sublist ((l.map g).flatten)
  | [], _ => by simp
  | x :: xs, h => by
    simp only [List.map_cons, List.flatten_cons]
    exact (h x (List.mem_cons_self x xs)).append
      (flatten_map_sublist f g xs (fun y hy => h y (List.mem_cons_of_mem x hy)))

theorem renderSub_eq_of_wf (sn sid now : String) (llm : String → Except String String)
    (x : String × SubData) (h : subWfB sn sid now x.2 = true) :
    renderSub sn sid now llm x =
      .ok (subLinesSpec sn sid now llm x.2,
           [leafPromptSpec sn sid now x.2.prompt x.2.weight]) := by
  rcases ht : x.2.title with _ | t
  · simp [subWfB, ht] at h
  · rcases hp : x.2.prompt with _ | p
    · simp [subWfB, hp] at h
    · rcases hq : pyFormat p sn sid now with e | q
      · simp [subWfB, hp, hq, exIsOk] at h
      · rcases hl : llm (markPrompt x.2.weight q) with e | content <;>
          simp [renderSub, ht, hp, hq, hl, subLinesSpec, leafPromptSpec, exGetD,
                resultOf, clauseLine]

theorem renderSub_ok_imp_wf (sn sid now : String) (llm : String → Except String String)
    (x : String × SubData) (r : List String × List String)
    (h : renderSub sn sid now llm x = .ok r) : subWfB sn sid now x.2 = true := by
  rcases ht : x.2.title with _ | t
  · simp [renderSub, ht] at h
  · rcases hp : x.2.prompt with _ | p
    · simp [renderSub, ht, hp] at h
    · rcases hq : pyFormat p sn sid now with e | q
      · simp [renderSub, ht, hp, hq] at h
      · simp [subWfB, ht, hp, hq, exIsOk]

theorem renderSec_eq_of_wf (sn sid now : String) (llm : String → Except String String)
    (x : String × SecData) (h : secWfB sn sid now x = true) :
    renderSec sn sid now llm x =
      .ok (secLinesSpec sn sid now llm x, secPromptsSpec sn sid now x) := by
  rcases ht : x.2.title with _ | t
  · simp [renderSec, ht, secLinesSpec, secPromptsSpec]
  · rcases hs : x.2.subsections with _ | subs
    · rcases hp : x.2.prompt with _ | p
      · simp [secWfB, ht, hs, hp] at h
      · rcases hq : pyFormat p sn sid now with e | q
        · simp [secWfB, ht, hs, hp, hq, exIsOk] at h
        · rcases hl : llm (markPrompt x.2.weight q) with e | content <;>
            simp [renderSec, ht, hs, hp, hq, hl, secLinesSpec, secPromptsSpec,
                  leafPromptSpec, exGetD, resultOf]
    · have hall : ∀ y ∈ subs, subWfB sn sid now y.2 = true := by
        rw [secWfB, ht, hs] at h
        exact fun y hy => List.all_eq_true.mp h y hy
      have hmap : exceptMap (renderSub sn sid now llm) subs =
          .ok (subs.map (fun y => (subLinesSpec sn sid now llm y.2,
            [leafPromptSpec sn sid now y.2.prompt y.2.weight]))) :=
        exceptMap_ok_of_forall _ _ subs
          (fun y hy => renderSub_eq_of_wf sn sid now llm y (hall y hy))
      simp only [renderSec, ht, hs, hmap, secLinesSpec, secPromptsSpec,
        List.map_map]
      rw [show (Prod.snd ∘ (fun (y : String × SubData) =>
          (subLinesSpec sn sid now llm y.2,
           [leafPromptSpec sn sid now y.2.prompt y.2.weight]))) =
          (fun y => [leafPromptSpec sn sid now y.2.prompt y.2.weight]) from rfl,
        flatten_map_singleton,
        show (Prod.fst ∘ (fun (y : String × SubData) =>
          (subLinesSpec sn sid now llm y.2,
           [leafPromptSpec sn sid now y.2.prompt y.2.weight]))) =
          (fun y => subLinesSpec sn sid now llm y.2) from rfl]

theorem renderSec_ok_imp_wf (sn sid now : String) (llm : String → Except String String)
    (x : String × SecData) (r : List String × List String)
    (h : renderSec sn sid now llm x = .ok r) : secWfB sn sid now x = true := by
  rcases ht : x.2.title with _ | t
  · simp [secWfB, ht]
  · rcases hs : x.2.subsections with _ | subs
    · rcases hp : x.2.prompt with _ | p
      · simp [renderSec, ht, hs, hp] at h
      · rcases hq : pyFormat p sn sid now with e | q
        · simp [renderSec, ht, hs, hp, hq] at h
        · simp [secWfB, ht, hs, hp, hq, exIsOk]
    · rcases hm : exceptMap (renderSub sn sid now llm) subs with e | blocks
      · simp [renderSec, ht, hs, hm] at h
      · have hall : ∀ y ∈ subs, subWfB sn sid now y.2 = true := by
          intro y hy
          rcases forall_ok_of_exceptMap_ok _ subs blocks hm y hy with ⟨b, hb⟩
          exact renderSub_ok_imp_wf sn sid now llm y b hb
        simp only [secWfB, ht, hs]
        exact List.all_eq_true.mpr hall

theorem renderSections_eq_of_wf (sn sid now : String) (llm : String → Except String String)
    (sections : List (String × SecData)) (h : wfB sn sid now sections = true) :
    renderSections sn sid now llm sections =
      .ok ((sections.map (secLinesSpec sn sid now llm)).flatten,
           (sections.map (secPromptsSpec sn sid now)).flatten) := by
  have hall : ∀ x ∈ sections, secWfB sn sid now x = true :=
    fun x hx => List.all_eq_true.mp h x hx
  have hmap : exceptMap (renderSec sn sid now llm) sections =
      .ok (sections.map (fun x => (secLinesSpec sn sid now llm x, secPromptsSpec sn sid now x))) :=
    exceptMap_ok_of_forall _ _ sections
      (fun x hx => renderSec_eq_of_wf sn sid now llm x (hall x hx))
  simp only [renderSections, hmap, List.map_map]
  rw [show (Prod.fst ∘ (fun (x : String × SecData) =>
        (secLinesSpec sn sid now llm x, secPromptsSpec sn sid now x))) =
      (fun x => secLinesSpec sn sid now llm x) from rfl,
    show (Prod.snd ∘ (fun (x : String × SecData) =>
        (secLinesSpec sn sid now llm x, secPromptsSpec sn sid now x))) =
      (fun x => secPromptsSpec sn sid now x) from rfl]

theorem renderSections_ok_imp_wf (sn sid now : String) (llm : String → Except String String)
    (sections : List (String × SecData)) (lp : List String × List String)
    (h : renderSections sn sid now llm sections = .ok lp) :
    wfB sn sid now sections = true := by
  rcases hm : exceptMap (renderSec sn sid now llm) sections with e | blocks
  · simp [renderSections, hm] at h
  · refine List.all_eq_true.mpr (fun x hx => ?_)
    rcases forall_ok_of_exceptMap_ok _ sections blocks hm x hx with ⟨b, hb⟩
    exact renderSec_ok_imp_wf sn sid now llm x b hb

theorem genPrecond_of_wf (sn sid now : String) (sections : List (String × SecData))
    (h : wfB sn sid now sections = true) : genPrecondB sections = true := by
  refine List.all_eq_true.mpr (fun x hx => ?_)
  have hx' : secWfB sn sid now x = true := List.all_eq_true.mp h x hx
  rcases ht : x.2.title with _ | t
  · simp [ht]
  · rcases hs : x.2.subsections with _ | subs
    · rcases hp : x.2.prompt with _ | p
      · simp [secWfB, ht, hs, hp] at hx'
      · simp [ht, hs, hp]
    · simp only [secWfB, ht, hs] at hx'
      simp only [ht, hs]
      refine List.all_eq_true.mpr (fun y hy => ?_)
      have hy' : subWfB sn sid now y.2 = true := List.all_eq_true.mp hx' y hy
      rcases hyt : y.2.title with _ | t'
      · simp [subWfB, hyt] at hy'
      · rcases hyp : y.2.prompt with _ | p'
        · simp [subWfB, hyp] at hy'
        · simp [hyt, hyp]

/-- C6: when loading the template fails, the call returns exactly the single
descriptive error string, with no document output and zero dispatched
generation calls (the prompt log is empty), for every input. -/
theorem C6_template_load_failure (jsonLoads : String → Option PyVal) (e : String)
    (now_str : String) (llm : String → Except String String) (tool_input : PyVal) :
    generate_iso_26262_item_definition jsonLoads (.error e) now_str llm tool_input =
      .ok ("❌ Error: Could not load Item Definition template.", []) := rfl

/-- A titled section with neither subsections nor prompt: the generative
traversal raises `KeyError` on it. -/
def c10bad : List (String × SecData) := [("scope", { title := some "Scope" })]

/-- A minimal template satisfying the generative precondition. -/
def c10good : List (String × SecData) :=
  [("scope", { title := some "Scope", prompt := some "Describe." })]

/-- C10: the generative call completes only when every titled section carries
subsections or a prompt and every subsection has title and prompt
(a successful render implies the precondition), and a template violating the
precondition makes the entire call abort with an unhandled `KeyError`. -/
theorem C10_generative_precondition :
    (∀ (sn sid now : String) (llm : String → Except String String)
       (sections : List (String × SecData)) (lp : List String × List String),
       renderSections sn sid now llm sections = .ok lp → genPrecondB sections = true) ∧
    generate_iso_26262_item_definition (fun _ => none)
        (.ok ⟨⟨"WP"⟩, c10bad⟩) "2025-01-01" (fun p => .ok p) PyVal.vother =
      .error (.keyError "prompt") ∧
    genPrecondB c10bad = false := by
  refine ⟨?_, by decide, by decide⟩
  intro sn sid now llm sections lp h
  exact genPrecond_of_wf sn sid now sections
    (renderSections_ok_imp_wf sn sid now llm sections lp h)

/-- C10 witness: the implication of `C10_generative_precondition` applied to a
concrete successful render. -/
theorem C10_generative_precondition_witness : genPrecondB c10good = true :=
  C10_generative_precondition.1 "S" "" "D" (fun p => .ok p) c10good
    (["## Scope", "Describe.", ""], ["Describe."]) (by decide)

/-- C3: when the generative renderer returns a document, its body is the
concatenation, in declared key order, of the per-section blocks; an untitled
section's block is empty; a titled section's block starts with its `##`
heading, followed (for composite sections) by its subsections' blocks in
declared order; and every subsection block starts with its `###` heading. -/
theorem C3_declared_order (sn sid now : String) (llm : String → Except String String)
    (sections : List (String × SecData)) (lines prompts : List String)
    (hok : renderSections sn sid now llm sections = .ok (lines, prompts)) :
    lines = (sections.map (secLinesSpec sn sid now llm)).flatten ∧
    (∀ x : String × SecData, x.2.title = none → secLinesSpec sn sid now llm x = []) ∧
    (∀ (x : String × SecData) (t : String), x.2.title = some t →
      secLinesSpec sn sid now llm x =
        ("## " ++ t) :: (clauseLine x.2.clause_ref ++
          (match x.2.subsections with
           | some subs => (subs.map (fun y => subLinesSpec sn sid now llm y.2)).flatten
           | none => [resultOf llm (leafPromptSpec sn sid now x.2.prompt x.2.weight), ""]))) ∧
    (∀ (sub : SubData) (t : String), sub.title = some t →
      ∃ rest, subLinesSpec sn sid now llm sub = ("### " ++ t) :: rest) := by
  have hwf := renderSections_ok_imp_wf sn sid now llm sections (lines, prompts) hok
  have hdec := renderSections_eq_of_wf sn sid now llm sections hwf
  rw [hok] at hdec
  have hpair := Except.ok.inj hdec
  refine ⟨congrArg Prod.fst hpair, ?_, ?_, ?_⟩
  · intro x hx; simp [secLinesSpec, hx]
  · intro x t hx
    rcases hs : x.2.subsections with _ | subs <;> simp [secLinesSpec, hx, hs]
  · intro sub t hst
    refine ⟨clauseLine sub.clause_ref ++
      [resultOf llm (leafPromptSpec sn sid now sub.prompt sub.weight), ""], ?_⟩
    simp [subLinesSpec, hst]

/-- Template exercising C3's witness: declared order with an untitled section
in the middle and a composite section with one subsection. -/
def c3secs : List (String × SecData) :=
  [("scope", { title := some "Scope", prompt := some "Describe {system_name}." }),
   ("hidden", {}),
   ("ifc", { title := some "Interfaces",
             subsections := some [("io", { title := some "IO", prompt := some "List IO." })] })]

/-- C3 witness: `C3_declared_order` applied to a concrete successful render. -/
theorem C3_declared_order_witness :
    (["## Scope", "Describe S.", "", "## Interfaces", "### IO", "List IO.", ""] : List String) =
      (c3secs.map (secLinesSpec "S" "" "D" (fun p => .ok p))).flatten :=
  (C3_declared_order "S" "" "D" (fun p => .ok p) c3secs
    ["## Scope", "Describe S.", "", "## Interfaces", "### IO", "List IO.", ""]
    ["Describe S.", "List IO."] (by decide)).1

/-- A subsection whose weight 1.25 lies strictly between the code's threshold
1.0 and the claimed default threshold 1.5. -/
def c5sub : SubData := { title := some "T", weight := some (mkRat 5 4), prompt := some "P" }

/-- C5 counterexample: with weight 1.25 — not exceeding the claimed default
threshold 1.5 — the renderer still prepends the priority marker to the
dispatched prompt, so the marker is not governed by a 1.5 threshold. -/
theorem C5_threshold_cex :
    renderSub "S" "" "D" (fun p => .ok p) ("k", c5sub) =
      .ok (["### T", "[FOCUS AREA - IMPORTANT] P", ""], ["[FOCUS AREA - IMPORTANT] P"]) ∧
    ¬ ((c5sub.weight.getD 1) > mkRat 3 2) := by
  exact ⟨by decide, by decide⟩

/-- C5 (amended): the priority marker is prepended to the substituted prompt
before dispatch exactly when the node's (possibly boosted) weight exceeds the
hardcoded threshold 1.0 — the threshold is not configurable and is 1.0, not
1.5. -/
theorem C5_marker_iff_weight_above_one (sn sid now : String)
    (llm : String → Except String String) (k : String) (sub : SubData)
    (t p0 q : String) (ht : sub.title = some t) (hp : sub.prompt = some p0)
    (hq : pyFormat p0 sn sid now = .ok q) :
    (∃ lines, renderSub sn sid now llm (k, sub) = .ok (lines, [markPrompt sub.weight q])) ∧
    (markPrompt sub.weight q = "[FOCUS AREA - IMPORTANT] " ++ q ↔ sub.weight.getD 1 > 1) := by
  constructor
  · rcases hl : llm (markPrompt sub.weight q) with e | c
    · exact ⟨("### " ++ t) :: (clauseLine sub.clause_ref ++ ["[Content generation failed]", ""]),
        by simp [renderSub, ht, hp, hq, hl]⟩
    · exact ⟨("### " ++ t) :: (clauseLine sub.clause_ref ++ [pyStrip c, ""]),
        by simp [renderSub, ht, hp, hq, hl]⟩
  · constructor
    · intro h
      by_contra hw
      rw [markPrompt, if_neg hw] at h
      have hlen := congrArg String.length h
      rw [String.length_append] at hlen
      have h25 : ("[FOCUS AREA - IMPORTANT] " : String).length = 25 := rfl
      omega
    · intro hw; rw [markPrompt, if_pos hw]

/-- The boosted subsection used to witness C5's amended theorem. -/
def c5wsub : SubData := { title := some "T", weight := some 2, prompt := some "P2" }

/-- C5 witness: the amended theorem applied at a concrete boosted node. -/
theorem C5_marker_iff_weight_above_one_witness :
    markPrompt c5wsub.weight "P2" = "[FOCUS AREA - IMPORTANT] " ++ "P2" ↔
      c5wsub.weight.getD 1 > 1 :=
  (C5_marker_iff_weight_above_one "S" "" "D" (fun p => .ok p) "k" c5wsub
    "T" "P2" "P2" rfl rfl (by decide)).2

/-- A composite section whose first subsection's prompt names an unknown
placeholder. -/
def c2secs : List (String × SecData) :=
  [("item", { title := some "Item",
              subsections := some
                [("a", { title := some "A", prompt := some "Use {bad}." }),
                 ("b", { title := some "B", prompt := some "Fine." })] })]

/-- C2 counterexample: a prompt naming an unknown placeholder makes the whole
generative call abort with an unhandled `KeyError` — nothing of the rest of
the document is rendered, contradicting the claim that the failure is
confined to that node. -/
theorem C2_substitution_abort_cex :
    renderSections "S" "" "D" (fun p => .ok p) c2secs = .error (.keyError "bad") := by
  decide

/-- C2 (amended): a substitution failure is not confined to the node — the
node renderer re-raises the substitution error instead of emitting a
placeholder, and a call that returns a document required every section's
render to have succeeded, so any node's substitution failure aborts the whole
call. -/
theorem C2_substitution_aborts_call (sn sid now : String)
    (llm : String → Except String String) (k : String) (sub : SubData)
    (t p0 : String) (e : PyErr) (ht : sub.title = some t)
    (hp : sub.prompt = some p0) (hq : pyFormat p0 sn sid now = .error e) :
    renderSub sn sid now llm (k, sub) = .error e ∧
    (∀ (sections : List (String × SecData)) (lp : List String × List String),
       renderSections sn sid now llm sections = .ok lp →
       ∀ x ∈ sections, ∃ r, renderSec sn sid now llm x = .ok r) := by
  constructor
  · simp [renderSub, ht, hp, hq]
  · intro sections lp hok x hx
    rcases hm : exceptMap (renderSec sn sid now llm) sections with e' | blocks
    · simp [renderSections, hm] at hok
    · exact forall_ok_of_exceptMap_ok _ sections blocks hm x hx

/-- The subsection used to witness C2's amended theorem. -/
def c2wsub : SubData := { title := some "A", prompt := some "Use {bad}." }

/-- C2 witness: the amended theorem applied at a concrete failing node. -/
theorem C2_substitution_aborts_call_witness :
    renderSub "S" "" "D" (fun p => .ok p) ("a", c2wsub) = .error (.keyError "bad") :=
  (C2_substitution_aborts_call "S" "" "D" (fun p => .ok p) "a" c2wsub
    "A" "Use {bad}." (.keyError "bad") rfl rfl (by decide)).1

/-- Specification companion: the boosted weight of a node — 2.0 when the node
matches the lower-cased keyword, unchanged otherwise. -/
def boostWeight (fs key : String) (title : Option String) (w : Option ℚ) : Option ℚ :=
  if matchB fs key title then some 2 else w

/-- Specification companion: a section with exactly the matching nodes (itself
and its subsections) boosted. -/
def boostNodeSpec (fs : String) (x : String × SecData) : String × SecData :=
  (x.1, { x.2 with
    weight := boostWeight fs x.1 x.2.title x.2.weight,
    subsections := x.2.subsections.map (fun subs => subs.map (fun y =>
      (y.1, { y.2 with weight := boostWeight fs y.1 y.2.title y.2.weight }))) })

theorem boostSec_if_push (fs k : String) (d : SecData) :
    (if matchB fs k d.title then { d with weight := some 2 } else d) =
      { d with weight := boostWeight fs k d.title d.weight } := by
  by_cases hm : matchB fs k d.title
  · simp [boostWeight, hm]
  · simp only [boostWeight, if_neg hm]

theorem boostSub_if_push (fs k : String) (d : SubData) :
    (if matchB fs k d.title then { d with weight := some 2 } else d) =
      { d with weight := boostWeight fs k d.title d.weight } := by
  by_cases hm : matchB fs k d.title
  · simp [boostWeight, hm]
  · simp only [boostWeight, if_neg hm]

theorem boostSecPass_fst (fs : String) : ∀ ss : List (String × SecData),
    (boostSecPass fs ss).1 = ss.map (fun x =>
      (x.1, if matchB fs x.1 x.2.title then { x.2 with weight := some 2 } else x.2))
  | [] => rfl
  | (k, d) :: rest => by
    by_cases hm : matchB fs k d.title <;>
      simp [boostSecPass, hm, boostSecPass_fst fs rest]

theorem boostSecPass_snd_nil (fs : String) : ∀ ss : List (String × SecData),
    ((boostSecPass fs ss).2 = []) ↔ ∀ x ∈ ss, matchB fs x.1 x.2.title = false
  | [] => by simp [boostSecPass]
  | (k, d) :: rest => by
    by_cases hm : matchB fs k d.title <;>
      simp [boostSecPass, hm, boostSecPass_snd_nil fs rest]

theorem boostSubPass_fst (fs sk : String) : ∀ subs : List (String × SubData),
    (boostSubPass fs sk subs).1 = subs.map (fun y =>
      (y.1, if matchB fs y.1 y.2.title then { y.2 with weight := some 2 } else y.2))
  | [] => rfl
  | (k, d) :: rest => by
    by_cases hm : matchB fs k d.title <;>
      simp [boostSubPass, hm, boostSubPass_fst fs sk rest]

theorem boostSubPass_snd_nil (fs sk : String) : ∀ subs : List (String × SubData),
    ((boostSubPass fs sk subs).2 = []) ↔ ∀ y ∈ subs, matchB fs y.1 y.2.title = false
  | [] => by simp [boostSubPass]
  | (k, d) :: rest => by
    by_cases hm : matchB fs k d.title <;>
      simp [boostSubPass, hm, boostSubPass_snd_nil fs sk rest]

theorem boostSubsPass_fst (fs : String) : ∀ ss : List (String × SecData),
    (boostSubsPass fs ss).1 = ss.map (fun x =>
      (x.1, { x.2 with
        subsections := x.2.subsections.map (fun subs => (boostSubPass fs x.1 subs).1) }))
  | [] => rfl
  | (k, d) :: rest => by
    rcases hs : d.subsections with _ | subs
    · simp only [boostSubsPass, hs, List.map_cons, Option.map_none',
        boostSubsPass_fst fs rest]
      rw [← hs]
    · simp [boostSubsPass, hs, boostSubsPass_fst fs rest]

theorem boostSubsPass_snd_nil (fs : String) : ∀ ss : List (String × SecData),
    ((boostSubsPass fs ss).2 = []) ↔
      ∀ x ∈ ss, ∀ y ∈ x.2.subsections.getD [], matchB fs y.1 y.2.title = false
  | [] => by simp [boostSubsPass]
  | (k, d) :: rest => by
    rcases hs : d.subsections with _ | subs
    · simp [boostSubsPass, hs, boostSubsPass_snd_nil fs rest]
    · simp [boostSubsPass, hs, List.append_eq_nil,
        boostSubPass_snd_nil fs k subs, boostSubsPass_snd_nil fs rest]

theorem boostSecNode_subs (fs : String) (x : String × SecData) :
    (if matchB fs x.1 x.2.title then { x.2 with weight := some 2 } else x.2).subsections =
      x.2.subsections := by
  by_cases hm : matchB fs x.1 x.2.title <;> simp [hm]

theorem applyFocus_truthy (ss : List (String × SecData)) (fs0 : String) (h : fs0 ≠ "") :
    applyFocus ss (some fs0) =
      ((boostSubsPass (strToLower fs0) (boostSecPass (strToLower fs0) ss).1).1,
       (boostSecPass (strToLower fs0) ss).2 ++
         (boostSubsPass (strToLower fs0) (boostSecPass (strToLower fs0) ss).1).2) := by
  have htr : focusTruthy (some fs0) = true := by simp [focusTruthy, h]
  simp [applyFocus, htr]

theorem applyFocus_fst_eq (ss : List (String × SecData)) (fs0 : String) (h : fs0 ≠ "") :
    (applyFocus ss (some fs0)).1 = ss.map (boostNodeSpec (strToLower fs0)) := by
  rw [applyFocus_truthy ss fs0 h]
  simp only [boostSubsPass_fst, boostSecPass_fst, List.map_map]
  congr 1
  funext x
  simp only [Function.comp, boostSec_if_push, boostSubPass_fst, boostSub_if_push,
    boostNodeSpec]

theorem applyFocus_snd_ne (ss : List (String × SecData)) (fs0 : String) (h : fs0 ≠ "") :
    ((applyFocus ss (some fs0)).2 ≠ []) ↔
      ((∃ x ∈ ss, matchB (strToLower fs0) x.1 x.2.title = true) ∨
       (∃ x ∈ ss, ∃ y ∈ x.2.subsections.getD [],
          matchB (strToLower fs0) y.1 y.2.title = true)) := by
  rw [applyFocus_truthy ss fs0 h, Ne, List.append_eq_nil, not_and_or]
  rw [boostSecPass_snd_nil, boostSubsPass_snd_nil, boostSecPass_fst]
  simp only [List.forall_mem_map, boostSecNode_subs]
  push_neg
  simp [Bool.not_eq_false]

/-- C4: when the focus keyword is falsy, no weight changes and the recorded
boosted-node list is empty; otherwise exactly the matching nodes (matched
case-insensitively as a substring of key or title) get weight 2.0 while all
other nodes are unchanged, and the recorded list is non-empty iff at least
one section's or subsection's key or title contains the keyword. -/
theorem C4_focus_weighting (ss : List (String × SecData)) (fso : Option String) :
    (focusTruthy fso = false → applyFocus ss fso = (ss, [])) ∧
    (∀ fs0, fso = some fs0 → fs0 ≠ "" →
      (applyFocus ss fso).1 = ss.map (boostNodeSpec (strToLower fs0)) ∧
      (((applyFocus ss fso).2 ≠ []) ↔
        ((∃ x ∈ ss, matchB (strToLower fs0) x.1 x.2.title = true) ∨
         (∃ x ∈ ss, ∃ y ∈ x.2.subsections.getD [],
            matchB (strToLower fs0) y.1 y.2.title = true)))) := by
  constructor
  · intro hf; simp [applyFocus, hf]
  · rintro fs0 rfl hne
    exact ⟨applyFocus_fst_eq ss fs0 hne, applyFocus_snd_ne ss fs0 hne⟩

/-- The two-section template used to witness C4. -/
def c4secs : List (String × SecData) :=
  [("interfaces", { title := some "Interfaces", prompt := some "I." }),
   ("assumptions", { title := some "Assumptions", prompt := some "A." })]

/-- C4 witness: the truthy branch of `C4_focus_weighting` at a concrete
matching keyword. -/
theorem C4_focus_weighting_witness :
    (applyFocus c4secs (some "Inter")).1 = c4secs.map (boostNodeSpec (strToLower "Inter")) ∧
    (applyFocus c4secs (some "Inter")).2 ≠ [] := by
  have h := (C4_focus_weighting c4secs (some "Inter")).2 "Inter" rfl (by decide)
  exact ⟨h.1, h.2.mpr (Or.inl ⟨("interfaces",
    { title := some "Interfaces", prompt := some "I." }), by decide, by decide⟩)⟩

/-- The untitled section used for C7: its key matches the focus keyword. -/
def c7sec : SecData := {}

/-- C7 counterexample: an untitled node whose key matches the keyword is
boosted and recorded, contradicting the claim that untitled nodes are
excluded from weighting and from the boosted-node list. -/
theorem C7_untitled_boost_cex :
    c7sec.title = none ∧
    (applyFocus [("brake_monitor", c7sec)] (some "Brake")).2 = ["brake_monitor"] ∧
    (applyFocus [("brake_monitor", c7sec)] (some "Brake")).1 =
      [("brake_monitor", { c7sec with weight := some 2 })] := by
  exact ⟨rfl, by decide, by decide⟩

/-- C7 (amended): a node lacking `title` contributes zero output lines, but it
is not excluded from focus weighting: the match test reads the missing title
as the empty string, so for a truthy keyword the node matches exactly when its
key contains the keyword. -/
theorem C7_untitled_sections (sn sid now : String) (llm : String → Except String String)
    (k : String) (sd : SecData) (h : sd.title = none) :
    renderSec sn sid now llm (k, sd) = .ok ([], []) ∧
    secLinesSpec sn sid now llm (k, sd) = [] ∧
    (∀ fs : String, fs ≠ "" → matchB fs k sd.title = strIn fs (strToLower k)) := by
  refine ⟨by simp [renderSec, h], by simp [secLinesSpec, h], ?_⟩
  intro fs hfs
  have hne : fs.toList ≠ [] := by
    intro hc
    apply hfs
    have h1 : String.mk fs.toList = String.mk [] := by rw [hc]
    exact h1
  have hempty : strIn fs "" = false := by
    rcases hl : fs.toList with _ | ⟨c, cs⟩
    · exact absurd hl hne
    · show listIsInf fs.toList [] = false
      rw [hl]
      rfl
  simp [matchB, h, strToLower, hempty]

/-- C7 witness: the amended theorem applied at a concrete untitled node. -/
theorem C7_untitled_sections_witness :
    renderSec "S" "" "D" (fun p => .ok p) ("brake_x", ({} : SecData)) = .ok ([], []) ∧
    matchB "brake" "brake_x" ({} : SecData).title = strIn "brake" (strToLower "brake_x") :=
  ⟨(C7_untitled_sections "S" "" "D" (fun p => .ok p) "brake_x" {} rfl).1,
   (C7_untitled_sections "S" "" "D" (fun p => .ok p) "brake_x" {} rfl).2.2 "brake"
     (by decide)⟩

/-- C9 counterexample: for the empty-string input — on which `json.loads`
raises, modelled by the parse function returning `none` on every string — the
normalizer yields the empty system name, not the default "Unknown System". -/
theorem C9_empty_input_cex :
    normalizeInput (fun _ => none) (PyVal.vstr "") = ("", "", none) ∧
    ("" : String) ≠ "Unknown System" := by
  exact ⟨rfl, by decide⟩

/-- C9 (amended): missing (non-string, non-dict) input yields the default
system name with empty id and no focus; the empty-string input instead yields
the empty string as system name (the trimmed raw text), not the default. -/
theorem C9_default_normalization (jsonLoads : String → Option PyVal)
    (h : jsonLoads "" = none) :
    normalizeInput jsonLoads PyVal.vother = ("Unknown System", "", none) ∧
    normalizeInput jsonLoads (PyVal.vstr "") = ("", "", none) := by
  refine ⟨rfl, ?_⟩
  simp only [normalizeInput, h]
  rfl

/-- C9 witness: the amended theorem applied at the everywhere-failing parse
function. -/
theorem C9_default_normalization_witness :
    normalizeInput (fun _ => none) PyVal.vother = ("Unknown System", "", none) :=
  (C9_default_normalization (fun _ => none) rfl).1

/-- The prompts dispatched by a wellformed template, in traversal order. -/
def leafPrompts (sn sid now : String) (sections : List (String × SecData)) : List String :=
  (sections.map (secPromptsSpec sn sid now)).flatten

/-- The document body lines of a wellformed template. -/
def docLines (sn sid now : String) (llm : String → Except String String)
    (sections : List (String × SecData)) : List String :=
  (sections.map (secLinesSpec sn sid now llm)).flatten

theorem secContent_sublist (sn sid now : String) (llm : String → Except String String)
    (x : String × SecData) :
    ((secPromptsSpec sn sid now x).map (resultOf llm)).Sublist
      (secLinesSpec sn sid now llm x) := by
  rcases ht : x.2.title with _ | t
  · simp [secPromptsSpec, secLinesSpec, ht]
  · rcases hs : x.2.subsections with _ | subs
    · simp only [secPromptsSpec, secLinesSpec, ht, hs, List.map_cons, List.map_nil]
      exact List.singleton_sublist.mpr (by simp)
    · simp only [secPromptsSpec, secLinesSpec, ht, hs, List.map_map]
      have h1 : (subs.map ((resultOf llm) ∘
          (fun y => leafPromptSpec sn sid now y.2.prompt y.2.weight))) =
          (subs.map (fun y =>
            [resultOf llm (leafPromptSpec sn sid now y.2.prompt y.2.weight)])).flatten := by
        rw [flatten_map_singleton]
        rfl
      rw [h1]
      refine List.Sublist.trans ?_ (List.sublist_append_right _ _)
      refine flatten_map_sublist _ _ subs (fun y _ => ?_)
      exact List.singleton_sublist.mpr (by simp [subLinesSpec])

/-- C1: with a wellformed template, when the content generator fails on
exactly one leaf node (index `i` of the dispatched-prompt list) and succeeds
with content `c j` on every other leaf `j`, the render still returns the
document (no abort); the per-leaf result list — every other node's stripped
content in traversal order with the single fixed placeholder line at the
failed node's position — is embedded in order in the returned lines. -/
theorem C1_single_failure_isolated (sn sid now : String)
    (llm : String → Except String String) (sections : List (String × SecData))
    (c : ℕ → String) (i : ℕ)
    (hwf : wfB sn sid now sections = true)
    (hi : i < (leafPrompts sn sid now sections).length)
    (hE : ∃ e, llm ((leafPrompts sn sid now sections).get ⟨i, hi⟩) = .error e)
    (hO : ∀ j (hj : j < (leafPrompts sn sid now sections).length), j ≠ i →
      llm ((leafPrompts sn sid now sections).get ⟨j, hj⟩) = .ok (c j)) :
    renderSections sn sid now llm sections =
      .ok (docLines sn sid now llm sections, leafPrompts sn sid now sections) ∧
    ((leafPrompts sn sid now sections).map (resultOf llm)).Sublist
      (docLines sn sid now llm sections) ∧
    (leafPrompts sn sid now sections).map (resultOf llm) =
      (List.range (leafPrompts sn sid now sections).length).map
        (fun j => if j = i then "[Content generation failed]" else pyStrip (c j)) := by
  refine ⟨renderSections_eq_of_wf sn sid now llm sections hwf, ?_, ?_⟩
  · rw [docLines, leafPrompts, List.map_flatten, List.map_map]
    exact flatten_map_sublist _ _ sections
      (fun x _ => secContent_sublist sn sid now llm x)
  · refine List.ext_getElem (by simp) ?_
    intro j h1 h2
    rw [List.getElem_map, List.getElem_map, List.getElem_range]
    rw [List.length_map] at h1
    by_cases hji : j = i
    · subst hji
      rcases hE with ⟨e, he⟩
      rw [List.get_eq_getElem] at he
      simp [resultOf, he]
    · have hc := hO j h1 hji
      rw [List.get_eq_getElem] at hc
      simp [resultOf, hc, hji]

/-- Template for the C1 witness: one composite section with two subsections. -/
def c1secs : List (String × SecData) :=
  [("item", { title := some "Item",
              subsections := some
                [("a", { title := some "A", prompt := some "P1" }),
                 ("b", { title := some "B", prompt := some "P2" })] })]

/-- Concrete generator failing exactly on the second leaf's prompt. -/
def c1llm : String → Except String String :=
  fun p => if p = "P2" then .error "boom" else .ok ("C " ++ p)

/-- C1 witness: `C1_single_failure_isolated` applied at the concrete template
with the second of two leaves failing. -/
theorem C1_single_failure_isolated_witness :
    (leafPrompts "S" "" "D" c1secs).map (resultOf c1llm) =
      (List.range (leafPrompts "S" "" "D" c1secs).length).map
        (fun j => if j = 1 then "[Content generation failed]" else pyStrip ("C P1")) :=
  (C1_single_failure_isolated "S" "" "D" c1llm c1secs (fun _ => "C P1") 1
    (by decide) (by decide) ⟨"boom", by decide⟩
    (fun j hj hne => by
      have hj2 : j < 2 := hj
      interval_cases j
      · rfl
      · exact absurd rfl hne)).2.2

/-- The value of one entry of a guidance `categories` dict: a list rendered as
bullets, or any other value rendered via its `str()` form. -/
inductive CatVal where
  | vlist (items : List String)
  | vstr (s : String)
deriving DecidableEq

/-- The `categories` field: a dict of named groups, or a plain list. -/
inductive Categories where
  | asDict (groups : List (String × CatVal))
  | asList (items : List String)
deriving DecidableEq

/-- A guidance-template subsection: the fields `generate_item_definition_template`
reads (the Python key `structure` is spelled `structure_` here). -/
structure GSubData where
  title : Option String := none
  clause_ref : Option String := none
  guidance : Option String := none
  format : Option String := none
  examples : Option (List String) := none
  modes_to_consider : Option (List String) := none
  categories : Option Categories := none
  structure_ : Option (List (String × String)) := none
  note : Option String := none
  scenarios_to_consider : Option (List String) := none
deriving DecidableEq

/-- A guidance-template top-level section (the Python key `example` is
spelled `example_` here). -/
structure GSecData where
  title : Option String := none
  clause_ref : Option String := none
  guidance : Option String := none
  example_ : Option String := none
  roles : Option (List String) := none
  configuration_items : Option (List String) := none
  subsections : Option (List (String × GSubData)) := none
deriving DecidableEq

/-- The guidance-template metadata the output reads. -/
structure GMetadata where
  work_product : String
  document_type : String
deriving DecidableEq

/-- The loaded guidance template. -/
structure GTemplate where
  metadata : GMetadata
  sections : List (String × GSecData)
deriving DecidableEq

/-- Python `str.title()` over ASCII letters: the first letter of each
alphabetic run upper-cased, the rest lower-cased. -/
def pyTitleAux : Bool → List Char → List Char
  | _, [] => []
  | prevAlpha, ch :: rest =>
    if ch.isAlpha then
      (if prevAlpha then ch.toLower else ch.toUpper) :: pyTitleAux true rest
    else
      ch :: pyTitleAux false rest

/-- Python `str.title()`. -/
def pyTitle (s : String) : String := String.mk (pyTitleAux false s.toList)

/-- Python `name.replace("_", " ")` (the source only ever replaces the single
underscore character). -/
def replaceUnderscores (s : String) : String :=
  String.mk (s.toList.map (fun ch => if ch = '_' then ' ' else ch))

/-- The lines one guidance category group contributes (lines 260-269). -/
def catGroupLines (g : String × CatVal) : List String :=
  ["**" ++ pyTitle (replaceUnderscores g.1) ++ ":**"] ++
    (match g.2 with
     | .vlist items => items.map (fun it => "- " ++ it)
     | .vstr s => [s]) ++ [""]

/-- The lines the `categories` field contributes (lines 256-274). -/
def categoriesLines : Categories → List String
  | .asDict groups => (groups.map catGroupLines).flatten
  | .asList items => ["**Categories:**"] ++ items.map (fun it => "- " ++ it) ++ [""]

/-- The body a titled guidance subsection emits after its headings
(lines 230-297): each present optional field, in the fixed source order,
ending with the separator. -/
def guidanceSubLines (sub : GSubData) : List String :=
  (match sub.guidance with
   | some g => ["**Guidance:**", g, ""]
   | none => []) ++
  (match sub.format with
   | some f => ["**Format:**", f, ""]
   | none => []) ++
  (match sub.examples with
   | some ex => ["**Examples:**"] ++ ex.map (fun e => "- " ++ e) ++ [""]
   | none => []) ++
  (match sub.modes_to_consider with
   | some ms => ["**Operating Modes to Consider:**"] ++ ms.map (fun m => "- " ++ m) ++ [""]
   | none => []) ++
  (match sub.categories with
   | some cats => categoriesLines cats
   | none => []) ++
  (match sub.structure_ with
   | some entries => (entries.map (fun en =>
       ["**" ++ pyTitle (replaceUnderscores en.1) ++ ":**", en.2, ""])).flatten
   | none => []) ++
  (match sub.note with
   | some n => ["*Note: " ++ n ++ "*", ""]
   | none => []) ++
  (match sub.scenarios_to_consider with
   | some sc => ["**Scenarios to Consider:**"] ++ sc.map (fun e => "- " ++ e) ++ [""]
   | none => []) ++
  ["---", ""]

/-- Render one guidance subsection (lines 224-297): reading `title` directly
raises `KeyError` when absent; every other field is optional. -/
def renderGuidanceSub (x : String × GSubData) : Except PyErr (List String) :=
  match x.2.title with
  | none => .error (.keyError "title")
  | some t =>
    .ok ((["### " ++ t] ++ clauseLine x.2.clause_ref ++ [""]) ++ guidanceSubLines x.2)

/-- The body a titled guidance section without subsections emits
(lines 299-324). -/
def guidanceSecLines (sec : GSecData) : List String :=
  (match sec.guidance with
   | some g => ["**Guidance:**", g, ""]
   | none => []) ++
  (match sec.example_ with
   | some e => ["**Example:**", e, ""]
   | none => []) ++
  (match sec.roles with
   | some rs => ["**Approval Roles:**"] ++
       rs.map (fun r => "- " ++ r ++ ": ____________ (Signature) ________ (Date)") ++ [""]
   | none => []) ++
  (match sec.configuration_items with
   | some ci => ["**Configuration Management:**"] ++ ci.map (fun it => "- " ++ it) ++ [""]
   | none => []) ++
  ["---", ""]

/-- Render one guidance section (lines 212-324): skipped without a title;
otherwise heading, optional clause line, blank line, then its subsections or
the guidance-only fields. -/
def renderGuidanceSec (x : String × GSecData) : Except PyErr (List String) :=
  match x.2.title with
  | none => .ok []
  | some t =>
    let head := ["## " ++ t] ++ clauseLine x.2.clause_ref ++ [""]
    match x.2.subsections with
    | some subs =>
      match exceptMap renderGuidanceSub subs with
      | .error e => .error e
      | .ok blocks => .ok (head ++ blocks.flatten)
    | none => .ok (head ++ guidanceSecLines x.2)

/-- Input normalization of `generate_item_definition_template`
(lines 186-190): a non-blank string is the trimmed name, a dict is read by
key, everything else keeps the placeholder default. -/
def normalizeTemplateInput (tool_input : PyVal) : String :=
  match tool_input with
  | .vstr s => if pyStrip s == "" then "[Item Name]" else pyStrip s
  | .vdict sn _ _ => sn.getD "[Item Name]"
  | .vother => "[Item Name]"

/-- The guidance-mode tool call `generate_item_definition_template`
(lines 171-331): parse the name, bail out on a load failure, emit the
header, render every section in order, join the lines. -/
def generate_item_definition_template (loadResult : Except String GTemplate)
    (now_str : String) (tool_input : PyVal) : Except PyErr String :=
  let system_name := normalizeTemplateInput tool_input
  match loadResult with
  | .error _ => .ok "❌ Error: Could not load Item Definition template guidance."
  | .ok template =>
    let header := ["# ISO 26262 Item Definition: " ++ system_name,
                   "*Work Product: " ++ template.metadata.work_product ++ "*",
                   "*Generated on: " ++ now_str ++ "*",
                   "*Document Type: " ++ template.metadata.document_type ++ "*",
                   ""]
    match exceptMap renderGuidanceSec template.sections with
    | .error e => .error e
    | .ok blocks => .ok (String.intercalate "\n" (header ++ blocks.flatten))

/-- Every subsection of every titled guidance section carries a title. -/
def gPrecondB (sections : List (String × GSecData)) : Bool :=
  sections.all fun x =>
    match x.2.title with
    | none => true
    | some _ =>
      match x.2.subsections with
      | some subs => subs.all (fun y => y.2.title.isSome)
      | none => true

theorem exceptMap_guidanceSub_ok : ∀ (subs : List (String × GSubData)),
    (∀ y ∈ subs, y.2.title.isSome = true) →
    ∃ bs, exceptMap renderGuidanceSub subs = .ok bs
  | [], _ => ⟨[], rfl⟩
  | y :: ys, h => by
    rcases ht : y.2.title with _ | t
    · have hy := h y (List.mem_cons_self y ys)
      simp [ht] at hy
    · rcases exceptMap_guidanceSub_ok ys
        (fun z hz => h z (List.mem_cons_of_mem y hz)) with ⟨bs, hbs⟩
      exact ⟨((["### " ++ t] ++ clauseLine y.2.clause_ref ++ [""]) ++
          guidanceSubLines y.2) :: bs,
        by simp [exceptMap, renderGuidanceSub, ht, hbs]⟩

theorem exceptMap_guidanceSec_ok : ∀ (ss : List (String × GSecData)),
    gPrecondB ss = true → ∃ bs, exceptMap renderGuidanceSec ss = .ok bs
  | [], _ => ⟨[], rfl⟩
  | x :: xs, h => by
    have hx : (match x.2.title with
        | none => true
        | some _ =>
          match x.2.subsections with
          | some subs => subs.all (fun y => y.2.title.isSome)
          | none => true) = true := List.all_eq_true.mp h x (List.mem_cons_self x xs)
    have hxs : gPrecondB xs = true := List.all_eq_true.mpr
      (fun z hz => List.all_eq_true.mp h z (List.mem_cons_of_mem x hz))
    rcases exceptMap_guidanceSec_ok xs hxs with ⟨bs, hbs⟩
    rcases ht : x.2.title with _ | t
    · exact ⟨[] :: bs, by simp [exceptMap, renderGuidanceSec, ht, hbs]⟩
    · rcases hs : x.2.subsections with _ | subs
      · exact ⟨((["## " ++ t] ++ clauseLine x.2.clause_ref ++ [""]) ++
            guidanceSecLines x.2) :: bs,
          by simp [exceptMap, renderGuidanceSec, ht, hs, hbs]⟩
      · rw [ht, hs] at hx
        rcases exceptMap_guidanceSub_ok subs
          (fun y hy => List.all_eq_true.mp hx y hy) with ⟨sbs, hsbs⟩
        exact ⟨((["## " ++ t] ++ clauseLine x.2.clause_ref ++ [""]) ++ sbs.flatten) :: bs,
          by simp [exceptMap, renderGuidanceSec, ht, hs, hsbs, hbs]⟩

/-- A guidance template whose single subsection lacks a title. -/
def c8template : GTemplate :=
  { metadata := { work_product := "WP", document_type := "Template" },
    sections := [("s", { title := some "T",
                         subsections := some [("a", ({} : GSubData))] })] }

/-- C8 counterexample: guidance mode does fail on a missing field — a
subsection lacking `title` aborts the whole guidance call with an unhandled
`KeyError`, although the claim lists `title` among the optional,
silently-skipped fields. -/
theorem C8_guidance_missing_title_cex :
    generate_item_definition_template (.ok c8template) "D" PyVal.vother =
      .error (.keyError "title") := by
  decide

/-- C8 (amended): guidance mode never fails on a missing optional field other
than a subsection's `title`: whenever every subsection of every titled
section carries a title, the call completes normally whatever other fields
are absent (an untitled section is skipped whole). -/
theorem C8_guidance_total (loadedTemplate : GTemplate) (now_str : String)
    (tool_input : PyVal) (h : gPrecondB loadedTemplate.sections = true) :
    ∃ out, generate_item_definition_template (.ok loadedTemplate) now_str tool_input =
      .ok out := by
  rcases exceptMap_guidanceSec_ok loadedTemplate.sections h with ⟨bs, hbs⟩
  refine ⟨String.intercalate "\n"
    ((["# ISO 26262 Item Definition: " ++ normalizeTemplateInput tool_input,
       "*Work Product: " ++ loadedTemplate.metadata.work_product ++ "*",
       "*Generated on: " ++ now_str ++ "*",
       "*Document Type: " ++ loadedTemplate.metadata.document_type ++ "*",
       ""]) ++ bs.flatten), ?_⟩
  simp [generate_item_definition_template, hbs]

/-- A guidance template exercising missing optional fields at every level. -/
def c8wtemplate : GTemplate :=
  { metadata := { work_product := "WP", document_type := "Template" },
    sections :=
      [("intro", { title := some "Intro",
                   subsections := some [("a", { title := some "A" })] }),
       ("skip", {}),
       ("approval", { title := some "Approval", roles := some ["Safety Manager"] })] }

/-- C8 witness: the amended theorem at a concrete template with absent
optional fields throughout. -/
theorem C8_guidance_total_witness :
    ∃ out, generate_item_definition_template (.ok c8wtemplate) "D" PyVal.vother =
      .ok out :=
  C8_guidance_total c8wtemplate "D" PyVal.vother (by decide)
